import Mathlib

/-!
Verification of the Hue node-server core (node_types.py, hue.py).

The device layer (`HueDimmLight` and its subclasses) is embedded as pure
functions on an explicit device state; the bridge's network replies are
passed in as parameters (each per-field result of `set_light` is
represented by its leading key, which is all the source inspects).
The controller layer (`Control` of hue.py) is embedded as a step function
on an explicit controller state; the three bridge pulls of a discovery
pass are parameters (`none` models a pull that raised).
-/

namespace HueNS

/-- Hue default transition time, milliseconds (`DEF_TRANSTIME`). -/
def DEF_TRANSTIME : Int := 400

/-- Fade transition time, milliseconds (`FADE_TRANSTIME`). -/
def FADE_TRANSTIME : Int := 4000

/-- The `HUE_EFFECTS` table of node_types.py. -/
def HUE_EFFECTS : List String := ["none", "colorloop"]

/-- The `HUE_ALERTS` table of node_types.py. -/
def HUE_ALERTS : List String := ["none", "select", "lselect"]

/-- A value stored in a bridge payload dict. -/
inductive HVal where
  | hBool : Bool → HVal
  | hInt : Int → HVal
  | hStr : String → HVal
  | hXY : Rat → Rat → HVal
deriving DecidableEq, Repr

/-- A bridge payload: a Python dict with string keys, in insertion order. -/
abbrev Payload := List (String × HVal)

/-- Key lookup in a payload (`command['k']` / `'k' in command`). -/
def getKey (p : Payload) (k : String) : Option HVal :=
  (List.find? (fun kv => kv.1 = k) p).map (fun kv => kv.2)

/-- Key-presence test, Python's in-operator on the dict. -/
def hasKey (p : Payload) (k : String) : Bool :=
  (getKey p k).isSome

/-- Python dict assignment `command[k] = v`: replace in place if the key
exists, otherwise append. -/
def setKey (p : Payload) (k : String) (v : HVal) : Payload :=
  if hasKey p k then
    List.map (fun kv => if kv.1 = k then (k, v) else kv) p
  else p ++ [(k, v)]

/-- Round-half-to-even of `num / den` for `den > 0`, the semantics of
Python 3's `round` on an exactly represented quotient. -/
def roundHalfEven (num : Int) (den : Int) : Int :=
  let q := Int.fdiv num den
  let r := num - q * den
  if 2 * r < den then q
  else if den < 2 * r then q + 1
  else if q % 2 = 0 then q else q + 1

/-- Modelled from the spec: `converters.bri2st` is not under src/; §4.1
specifies `brightnessToStatus` as a monotone linear rescale of [1,254] to a
percentage-like scale. Modelled as the rounded rescale `bri * 100 / 255`. -/
def bri2st (b : Int) : Int := roundHalfEven (b * 100) 255

/-- Modelled from the spec: `converters.id_2_addr` is not under src/; the
spec specifies only a stable address derived from the device's
globally-unique hardware id. Modelled as the hardware id itself. -/
def id_2_addr (uid : String) : String := uid

/-- Python truthiness of `self.saved_brightness` (None and 0 are falsy). -/
def pyTruthyOpt : Option Int → Bool
  | none => false
  | some v => v != 0

/-- Modelled from the spec: `converters.kel2mired` is not under src/; §4.1
specifies `mired = round(1_000_000 / kelvin)` with a domain guard against
kelvin = 0.  Modelled for positive kelvin as the rounded quotient. -/
def kel2mired (k : Int) : Int := roundHalfEven 1000000 k

/-- State of one `HueDimmLight` (and subclass) node.  `onS` embeds the
source's `self.on` (`on` is reserved in Lean); `ct` is the
color-temperature field of the WhiteAmbiance/ExtendedColor subclasses. -/
structure DevState where
  onS : Option Bool
  st : Int
  brightness : Int
  saved_brightness : Option Int
  alert : Option String
  transitiontime : Int
  hue : Int
  saturation : Int
  ct : Int
  color_x : Rat
  color_y : Rat
  effect : Option String
deriving DecidableEq, Repr

/-- Embeds `HueDimmLight._validateBri`'s return value.  The source's
`brightness < 1` branch assigns to a misspelled local (`brighness`), so the
low clamp has no effect on the value returned. -/
def validateBri (b : Int) : Int :=
  if b > 254 then 254 else b

/-- Embeds `_validateBri` including its side effect `self.st = bri2st(brightness)`. -/
def validateBriSt (s : DevState) (b : Int) : DevState × Int :=
  let b2 := validateBri b
  ({ s with st := bri2st b2 }, b2)

/-- Embeds `HueDimmLight._send_command`.  `rs` is the bridge's reply to the
single `set_light` call, each per-field result represented by its first key
(the only thing `list(resp.keys())[0] == 'success'` inspects).  Returns the
new device state, the list of payloads sent to the bridge (always exactly
one), and the boolean result. -/
def sendCommand (s : DevState) (cmd : Payload) (transtime : Int) (checkOn : Bool)
    (rs : List String) : DevState × List Payload × Bool :=
  let cmd := if transtime != DEF_TRANSTIME then
      setKey cmd "transitiontime" (HVal.hInt (roundHalfEven transtime 100))
    else cmd
  let sc : DevState × Payload :=
    if checkOn && (s.onS != some true) then
      let cmd := setKey cmd "on" (HVal.hBool true)
      let s := { s with onS := some true }
      if pyTruthyOpt s.saved_brightness then
        let cmd := if hasKey cmd "bri" then cmd
          else setKey cmd "bri" (HVal.hInt (s.saved_brightness.getD 0))
        ({ s with saved_brightness := none }, cmd)
      else (s, cmd)
    else (s, cmd)
  (sc.1, [sc.2], List.all rs (fun r => r == "success"))

/-- Embeds `HueDimmLight.setBaseCtl`.  `value` is the command's scalar value
(`none` when absent); `rs` the bridge reply.  The result Bool is `none` for
an unknown command, where the source would raise on `return result`. -/
def setBaseCtl (s : DevState) (cmd : String) (value : Option Int)
    (rs : List String) : DevState × List Payload × Option Bool :=
  let trans : Int := if cmd = "DFON" ∨ cmd = "DFOF" then 0 else s.transitiontime
  if cmd = "DON" ∨ cmd = "DFON" then
    let s := { s with onS := some false }
    let sp : DevState × Payload :=
      match value with
      | some v =>
        let sb := validateBriSt s v
        let s := { sb.1 with brightness := sb.2 }
        (s, setKey [] "bri" (HVal.hInt sb.2))
      | none => (s, [])
    let s := { sp.1 with st := bri2st sp.1.brightness }
    let r := sendCommand s sp.2 trans true rs
    (r.1, r.2.1, some r.2.2)
  else if cmd = "DOF" ∨ cmd = "DFOF" then
    let s := { s with onS := some false, st := 0 }
    let hc := setKey [] "on" (HVal.hBool false)
    let r := sendCommand s hc trans false rs
    let s := if trans != DEF_TRANSTIME then
        { r.1 with saved_brightness := some r.1.brightness }
      else r.1
    (s, r.2.1, some r.2.2)
  else if cmd = "BRT" ∨ cmd = "DIM" ∨ cmd = "FDUP" ∨ cmd = "FDDOWN" ∨ cmd = "FDSTOP" then
    let ti : Int × Int :=
      if cmd = "BRT" then
        (trans, if s.brightness + 10 > 254 then 254 - s.brightness else 10)
      else if cmd = "DIM" then
        (trans, if s.brightness + (-10) < 1 then 1 - s.brightness else -10)
      else if cmd = "FDUP" then (FADE_TRANSTIME, 254 - s.brightness)
      else if cmd = "FDDOWN" then (FADE_TRANSTIME, 1 - s.brightness)
      else (trans, 0)
    let s := { s with brightness := s.brightness + ti.2 }
    let s := { s with st := bri2st s.brightness }
    let hc := setKey [] "bri_inc" (HVal.hInt ti.2)
    let r := sendCommand s hc ti.1 true rs
    (r.1, r.2.1, some r.2.2)
  else (s, [], none)

/-- Embeds `HueDimmLight.setBrightness`. -/
def setBrightness (s : DevState) (value : Int) (rs : List String) :
    DevState × List Payload × Bool :=
  let sb := validateBriSt s value
  let s := { sb.1 with brightness := sb.2 }
  let hc := setKey [] "bri" (HVal.hInt sb.2)
  sendCommand s hc s.transitiontime true rs

/-- Python list indexing with negative-index wrap-around; `none` models an
`IndexError`. -/
def pyIndex {α : Type} (l : List α) (i : Int) : Option α :=
  if 0 ≤ i then l.get? i.toNat
  else if (-i) ≤ (l.length : Int) then l.get? (l.length - (-i).toNat)
  else none

/-- Embeds `HueDimmLight.setAlert`; `none` models the `IndexError` raised
by `HUE_ALERTS[val]` before any bridge call. -/
def setAlert (s : DevState) (value : Int) (rs : List String) :
    Option (DevState × List Payload × Bool) :=
  match pyIndex HUE_ALERTS (value - 1) with
  | none => none
  | some a =>
    let s := { s with alert := some a }
    let hc := setKey [] "alert" (HVal.hStr a)
    some (sendCommand s hc s.transitiontime true rs)

/-- Embeds `HueColorLight.setEffect`; `none` models the `IndexError` raised
by `HUE_EFFECTS[val]` before any bridge call. -/
def setEffect (s : DevState) (value : Int) (rs : List String) :
    Option (DevState × List Payload × Bool) :=
  match pyIndex HUE_EFFECTS (value - 1) with
  | none => none
  | some e =>
    let s := { s with effect := some e }
    let hc := setKey [] "effect" (HVal.hStr e)
    some (sendCommand s hc s.transitiontime true rs)

/-- Embeds `HueColorLight.setColorHSB` (query fields H, S, BR, D). -/
def setColorHSB (s : DevState) (h sat br d : Int) (rs : List String) :
    DevState × List Payload × Bool :=
  let s := { s with hue := h, saturation := sat }
  let sb := validateBriSt s br
  let s := { sb.1 with brightness := sb.2 }
  let hc := setKey (setKey (setKey [] "hue" (HVal.hInt h)) "sat" (HVal.hInt sat))
    "bri" (HVal.hInt sb.2)
  sendCommand s hc d true rs

/-- Embeds `HueColorLight.setColorXY` (query fields X, Y, D, BR). -/
def setColorXY (s : DevState) (x y : Rat) (d : Int) (br : Int) (rs : List String) :
    DevState × List Payload × Bool :=
  let s := { s with color_x := x, color_y := y }
  let sb := validateBriSt s br
  let s := { sb.1 with brightness := sb.2 }
  let hc := setKey (setKey [] "xy" (HVal.hXY x y)) "bri" (HVal.hInt sb.2)
  sendCommand s hc d true rs

/-- Embeds `HueWhiteLight.setCt` (and the identical `HueEColorLight.setCt`). -/
def setCt (s : DevState) (value : Int) (rs : List String) :
    DevState × List Payload × Bool :=
  let s := { s with ct := value }
  let hc := setKey [] "ct" (HVal.hInt (kel2mired s.ct))
  sendCommand s hc s.transitiontime true rs

/-- Embeds `HueWhiteLight.setCtBri` (and the identical
`HueEColorLight.setCtBri`; query fields BR, K). -/
def setCtBri (s : DevState) (br k : Int) (rs : List String) :
    DevState × List Payload × Bool :=
  let sb := validateBriSt s br
  let s := { sb.1 with brightness := sb.2 }
  let s := { s with ct := k }
  let hc := setKey (setKey [] "ct" (HVal.hInt (kel2mired k))) "bri"
    (HVal.hInt sb.2)
  sendCommand s hc s.transitiontime true rs

/-- Embeds `HueColorLight.setHue`. -/
def setHue (s : DevState) (value : Int) (rs : List String) :
    DevState × List Payload × Bool :=
  let s := { s with hue := value }
  let hc := setKey [] "hue" (HVal.hInt value)
  sendCommand s hc s.transitiontime true rs

/-- Embeds `HueColorLight.setSat`. -/
def setSat (s : DevState) (value : Int) (rs : List String) :
    DevState × List Payload × Bool :=
  let s := { s with saturation := value }
  let hc := setKey [] "sat" (HVal.hInt value)
  sendCommand s hc s.transitiontime true rs

/-- Embeds `HueColorLight.setColor`.  `palette` models the fixed color
table behind `converters.color_xy`, which is not under src/; the spec
(§4.1) specifies only a fixed-palette lookup by the decremented 1-based
value, so the command is embedded relative to an arbitrary palette, with
`none` modelling an out-of-range `IndexError` before any bridge call. -/
def setColor (palette : List (Rat × Rat)) (s : DevState) (value : Int)
    (rs : List String) : Option (DevState × List Payload × Bool) :=
  match pyIndex palette (value - 1) with
  | none => none
  | some xy =>
    let s := { s with color_x := xy.1, color_y := xy.2 }
    let hc := setKey [] "xy" (HVal.hXY xy.1 xy.2)
    some (sendCommand s hc s.transitiontime true rs)

/-- Embeds `HueColorLight.setColorRGB` (query fields R, G, B, D, BR).
`conv` stands for `converters.RGB_2_xy`, which is not under src/: the spec
(§4.1) specifies a real-valued gamma transform whose exact constants are
not pinned down, so the command is embedded relative to an arbitrary
conversion; the properties proved about this command do not depend on it. -/
def setColorRGB (conv : Int → Int → Int → Rat × Rat) (s : DevState)
    (r g b d br : Int) (rs : List String) : DevState × List Payload × Bool :=
  let sb := validateBriSt s br
  let s := { sb.1 with brightness := sb.2 }
  let xy := conv r g b
  let s := { s with color_x := xy.1, color_y := xy.2 }
  let hc := setKey (setKey [] "xy" (HVal.hXY xy.1 xy.2)) "bri"
    (HVal.hInt sb.2)
  sendCommand s hc d true rs

/-- A light as reported by the bridge (`self.lights[hub][lamp_id]`). -/
structure Light where
  uniqueid : String
  lname : String
  ltype : String
deriving DecidableEq, Repr

/-- A group as reported by the bridge. -/
structure HGroup where
  gname : String
  gtype : String
  lights : List String
deriving DecidableEq, Repr

/-- A scene as reported by the bridge (`group` is absent for
non-group scenes). -/
structure Scene where
  sname : String
  stype : String
  group : Option String
deriving DecidableEq, Repr

/-- Node classification of `Control._discover`'s light loop: the advertised
type string decides the node class; `none` is an unsupported type (logged,
not tracked). -/
inductive DevKind where
  | dimm | white | color | ecolor
deriving DecidableEq, Repr

/-- The `data['type']` dispatch of `Control._discover`. -/
def classifyLight : String → Option DevKind
  | "Extended color light" => some DevKind.ecolor
  | "Color light" => some DevKind.color
  | "Color temperature light" => some DevKind.white
  | "Dimmable light" => some DevKind.dimm
  | _ => none

/-- An entry of `self.scene_lookup`: hub, group id, ordinal, scene id,
scene name.  (The source stores the group id as `int(group_id)`; it is kept
as the raw string here.) -/
structure SceneEntry where
  hub : String
  group : String
  idx : Nat
  sceneId : String
  sceneName : String
deriving DecidableEq, Repr

/-- Python's `s.split('.')` on a list of characters. -/
def splitDot : List Char → List (List Char)
  | [] => [[]]
  | c :: cs =>
    match splitDot cs with
    | [] => [[c]]
    | h :: t => if c = '.' then [] :: h :: t else (c :: h) :: t

/-- The last component of the split, as in the source's indexing by -1. -/
def lastComp (s : String) : String :=
  String.mk ((splitDot s.data).getLastD [])

/-- The synthetic group node address of `Control._discover`. -/
def groupAddr (numHubs : Nat) (hubIdx gid : String) : String :=
  if numHubs > 1 then "huegrp" ++ lastComp hubIdx ++ gid
  else "huegrp" ++ gid

/-- Python dict assignment on an association list keyed by strings:
replace in place when present, append otherwise. -/
def setAssoc {α : Type} (m : List (String × α)) (k : String) (v : α) :
    List (String × α) :=
  if m.any (fun kv => kv.1 = k) then
    m.map (fun kv => if kv.1 = k then (k, v) else kv)
  else m ++ [(k, v)]

/-- State of the `Control` node of hue.py.  `hubs` records each key of
`self.hub` and whether its session is live (`false` embeds
`self.hub[idx] is None`).  The light/group/scene snapshots are per-hub
dicts whose values may be `None`. -/
structure CtrlState where
  hubs : List (String × Bool)
  lights : List (String × Option (List (String × Light)))
  groups : List (String × Option (List (String × HGroup)))
  scenes : List (String × Option (List (String × Scene)))
  nodes : List String
  sceneLookup : List SceneEntry
  discovery : Bool
deriving DecidableEq, Repr

/-- The `self.hub[hub_idx] is None` test (an absent key is treated as a dead
session; the source would raise `KeyError`). -/
def hubConnected (s : CtrlState) (idx : String) : Bool :=
  match s.hubs.find? (fun kv => kv.1 = idx) with
  | some kv => kv.2
  | none => false

/-- Python truthiness of a pulled inventory: `None` and `{}` are falsy. -/
def invTruthy {α : Type} : Option (List α) → Bool
  | none => false
  | some l => !l.isEmpty

/-- Embeds `self.poly.addNode` guarded by `if not self.poly.getNode(address)`. -/
def addNode (ns : List String) (a : String) : List String :=
  if a ∈ ns then ns else ns ++ [a]

/-- Embeds `self.poly.delNode(address)`. -/
def delNode (ns : List String) (a : String) : List String :=
  ns.filter (fun b => b ≠ a)

/-- The light loop of `Control._discover`: each supported light not yet
tracked is added under its hardware-id-derived address. -/
def lightPhase (ls : List (String × Light)) (ns : List String) : List String :=
  ls.foldl (fun ns l =>
    let addr := id_2_addr l.2.uniqueid
    if addr ∈ ns then ns
    else
      match classifyLight l.2.ltype with
      | some _ => ns ++ [addr]
      | none => ns) ns

/-- The scene-lookup entries built while creating one group: scenes whose
declared group matches, numbered from `scene_idx = 0` in scene order. -/
def sceneEntries (hub gid : String) (scenes : List (String × Scene)) :
    List SceneEntry :=
  (scenes.foldl (fun (acc : List SceneEntry × Nat) sc =>
    match sc.2.group with
    | some g =>
      if g = gid then
        (acc.1 ++ [⟨hub, gid, acc.2, sc.1, sc.2.sname⟩], acc.2 + 1)
      else acc
    | none => acc) ([], 0)).1

/-- One iteration of the group loop of `Control._discover`, acting on the
tracked node list and the scene lookup. -/
def groupStep (numHubs : Nat) (hub : String)
    (scenesOpt : Option (List (String × Scene)))
    (st : List String × List SceneEntry) (g : String × HGroup) :
    List String × List SceneEntry :=
  let addr := groupAddr numHubs hub g.1
  if !g.2.lights.isEmpty then
    if addr ∈ st.1 then st
    else
      (st.1 ++ [addr],
       st.2 ++ (if invTruthy scenesOpt then
           sceneEntries hub g.1 (scenesOpt.getD []) else []))
  else
    if addr ∈ st.1 then (delNode st.1 addr, st.2) else st

/-- Embeds `Control._discover` for one bridge.  `pl`, `ps`, `pg` are the
results of this pass's `_get_lights` / `_get_scenes` / `_get_groups`
(`none` models a pull that raised).  Returns the new state, the boolean
result, and the list of bridge pulls performed. -/
def discoverStep (hubIdx : String) (pl : Option (List (String × Light)))
    (ps : Option (List (String × Scene)))
    (pg : Option (List (String × HGroup)))
    (s : CtrlState) : CtrlState × Bool × List String :=
  if hubConnected s hubIdx = false ∨ s.discovery = true then (s, true, [])
  else
    let s := { s with discovery := true }
    let s := { s with lights := setAssoc s.lights hubIdx pl }
    if invTruthy pl = false then
      ({ s with discovery := false }, false, ["get_light"])
    else
      let s := { s with nodes := lightPhase (pl.getD []) s.nodes }
      let s := { s with scenes := setAssoc s.scenes hubIdx ps }
      let s := { s with groups := setAssoc s.groups hubIdx pg }
      if invTruthy pg = false then
        ({ s with discovery := false }, false,
         ["get_light", "get_scene", "get_group"])
      else
        let nsl := (pg.getD []).foldl (groupStep s.hubs.length hubIdx ps)
          (s.nodes, s.sceneLookup)
        ({ s with nodes := nsl.1, sceneLookup := nsl.2, discovery := false },
         true, ["get_light", "get_scene", "get_group"])

/-- Embeds `Control.updateNodes`.  `plu`, `pgu` are the pull results;
`refreshOk` abstracts the per-node `updateInfo` loop (false when a node
raised).  Returns the new state, the result, and the pulls performed. -/
def updateNodes (hubIdx : String) (plu : Option (List (String × Light)))
    (pgu : Option (List (String × HGroup))) (refreshOk : Bool)
    (s : CtrlState) : CtrlState × Bool × List String :=
  if hubConnected s hubIdx = false ∨ s.discovery = true then (s, true, [])
  else
    let s := { s with lights := setAssoc s.lights hubIdx plu,
                      groups := setAssoc s.groups hubIdx pgu }
    (s, refreshOk, ["get_light", "get_group"])

/-! ### Payload-key lemmas -/

lemma getKey_map_set (p : Payload) (k : String) (v : HVal)
    (h : hasKey p k = true) :
    getKey (p.map (fun kv => if kv.1 = k then (k, v) else kv)) k = some v := by
  induction p with
  | nil => simp [hasKey, getKey] at h
  | cons kv p ih =>
    by_cases hk : kv.1 = k
    · simp [getKey, List.find?, hk]
    · have h' : hasKey p k = true := by
        simpa [hasKey, getKey, List.find?, hk] using h
      simpa [getKey, List.find?, hk] using ih h'

lemma getKey_append_single_self (p : Payload) (k : String) (v : HVal)
    (h : hasKey p k = false) :
    getKey (p ++ [(k, v)]) k = some v := by
  induction p with
  | nil => simp [getKey, List.find?]
  | cons kv p ih =>
    by_cases hk : kv.1 = k
    · simp [hasKey, getKey, List.find?, hk] at h
    · have h' : hasKey p k = false := by
        simpa [hasKey, getKey, List.find?, hk] using h
      simpa [getKey, List.find?, hk] using ih h'

lemma getKey_setKey_self (p : Payload) (k : String) (v : HVal) :
    getKey (setKey p k v) k = some v := by
  by_cases h : hasKey p k = true
  · simpa [setKey, h] using getKey_map_set p k v h
  · have h' : hasKey p k = false := by simpa using h
    simpa [setKey, h'] using getKey_append_single_self p k v h'

lemma getKey_map_set_ne (p : Payload) (k k' : String) (v : HVal)
    (hne : k' ≠ k) :
    getKey (p.map (fun kv => if kv.1 = k then (k, v) else kv)) k' =
      getKey p k' := by
  have hkk : ¬(k = k') := fun hc => hne hc.symm
  induction p with
  | nil => rfl
  | cons kv p ih =>
    by_cases hk : kv.1 = k
    · have h2 : ¬(kv.1 = k') := by rw [hk]; exact hkk
      simp [getKey, List.find?, hk, hkk, h2] at ih ⊢
      exact ih
    · by_cases hk' : kv.1 = k'
      · simp [getKey, List.find?, hk, hk', hne]
      · simp [getKey, List.find?, hk, hk'] at ih ⊢
        exact ih

lemma getKey_append_single_ne (p : Payload) (k k' : String) (v : HVal)
    (hne : k' ≠ k) :
    getKey (p ++ [(k, v)]) k' = getKey p k' := by
  have hkk : ¬(k = k') := fun hc => hne hc.symm
  induction p with
  | nil => simp [getKey, List.find?, hkk]
  | cons kv p ih =>
    by_cases hk' : kv.1 = k'
    · simp [getKey, List.find?, hk']
    · simp [getKey, List.find?, hk'] at ih ⊢
      exact ih

lemma getKey_setKey_ne (p : Payload) (k k' : String) (v : HVal)
    (hne : k' ≠ k) :
    getKey (setKey p k v) k' = getKey p k' := by
  by_cases h : hasKey p k = true
  · simpa [setKey, h] using getKey_map_set_ne p k k' v hne
  · have h' : hasKey p k = false := by simpa using h
    simpa [setKey, h'] using getKey_append_single_ne p k k' v hne

lemma hasKey_setKey_ne (p : Payload) (k k' : String) (v : HVal)
    (hne : k' ≠ k) :
    hasKey (setKey p k v) k' = hasKey p k' := by
  simp [hasKey, getKey_setKey_ne p k k' v hne]

lemma hasKey_setKey_nil (k : String) (v : HVal) (k' : String)
    (h : k' ≠ k) : hasKey (setKey [] k v) k' = false := by
  rw [hasKey_setKey_ne [] k k' v h]
  rfl

lemma hasKey_setKey2_nil (k1 k2 : String) (v1 v2 : HVal) (k' : String)
    (h1 : k' ≠ k1) (h2 : k' ≠ k2) :
    hasKey (setKey (setKey [] k1 v1) k2 v2) k' = false := by
  rw [hasKey_setKey_ne _ k2 k' v2 h2, hasKey_setKey_ne [] k1 k' v1 h1]
  rfl

lemma hasKey_setKey3_nil (k1 k2 k3 : String) (v1 v2 v3 : HVal) (k' : String)
    (h1 : k' ≠ k1) (h2 : k' ≠ k2) (h3 : k' ≠ k3) :
    hasKey (setKey (setKey (setKey [] k1 v1) k2 v2) k3 v3) k' = false := by
  rw [hasKey_setKey_ne _ k3 k' v3 h3, hasKey_setKey_ne _ k2 k' v2 h2,
    hasKey_setKey_ne [] k1 k' v1 h1]
  rfl

/-- The transitiontime field a payload is expected to carry for an
effective transition of `t` milliseconds: absent at the 400 ms default,
the rounded decisecond value otherwise. -/
def expectedTrans (t : Int) : Option HVal :=
  if t != DEF_TRANSTIME then some (HVal.hInt (roundHalfEven t 100))
  else none

/-- The transitiontime field of the payload actually sent by
`_send_command`: present exactly when the transition differs from the
400 ms default, and then holding the rounded decisecond value. -/
lemma sendCommand_transfield (s : DevState) (p : Payload) (t : Int)
    (c : Bool) (rs : List String) (h : hasKey p "transitiontime" = false) :
    getKey ((sendCommand s p t c rs).2.1.headD []) "transitiontime" =
      expectedTrans t := by
  unfold expectedTrans
  have hON : ("transitiontime" : String) ≠ "on" := by decide
  have hBRI : ("transitiontime" : String) ≠ "bri" := by decide
  have h0 : getKey p "transitiontime" = none := by
    unfold hasKey at h
    exact Option.not_isSome_iff_eq_none.mp (by simp [h])
  unfold sendCommand
  by_cases ht : (t != DEF_TRANSTIME) = true
  · have h1 : getKey (setKey p "transitiontime"
        (HVal.hInt (roundHalfEven t 100))) "transitiontime" =
        some (HVal.hInt (roundHalfEven t 100)) := getKey_setKey_self _ _ _
    by_cases hc : (c && (s.onS != some true)) = true
    · by_cases hsb : pyTruthyOpt s.saved_brightness = true
      · by_cases hbri : hasKey (setKey (setKey p "transitiontime"
            (HVal.hInt (roundHalfEven t 100))) "on" (HVal.hBool true))
            "bri" = true
        · simpa [ht, hc, hsb, hbri,
            getKey_setKey_ne _ "on" "transitiontime" _ hON] using h1
        · rw [Bool.not_eq_true] at hbri
          simpa [ht, hc, hsb, hbri,
            getKey_setKey_ne _ "bri" "transitiontime" _ hBRI,
            getKey_setKey_ne _ "on" "transitiontime" _ hON] using h1
      · rw [Bool.not_eq_true] at hsb
        simpa [ht, hc, hsb,
          getKey_setKey_ne _ "on" "transitiontime" _ hON] using h1
    · rw [Bool.not_eq_true] at hc
      simpa [ht, hc] using h1
  · rw [Bool.not_eq_true] at ht
    by_cases hc : (c && (s.onS != some true)) = true
    · by_cases hsb : pyTruthyOpt s.saved_brightness = true
      · by_cases hbri : hasKey (setKey p "on" (HVal.hBool true)) "bri" = true
        · simpa [ht, hc, hsb, hbri,
            getKey_setKey_ne _ "on" "transitiontime" _ hON] using h0
        · rw [Bool.not_eq_true] at hbri
          simpa [ht, hc, hsb, hbri,
            getKey_setKey_ne _ "bri" "transitiontime" _ hBRI,
            getKey_setKey_ne _ "on" "transitiontime" _ hON] using h0
      · rw [Bool.not_eq_true] at hsb
        simpa [ht, hc, hsb,
          getKey_setKey_ne _ "on" "transitiontime" _ hON] using h0
    · rw [Bool.not_eq_true] at hc
      simpa [ht, hc] using h0

/-! ### A concrete device state used by several witnesses -/

/-- A fully initialized dimmable/color device state: on, brightness 100,
default transition time. -/
def dev0 : DevState :=
  { onS := some true, st := 39, brightness := 100, saved_brightness := none,
    alert := none, transitiontime := 400, hue := 0, saturation := 0,
    ct := 0, color_x := 0, color_y := 0, effect := none }

/-! ### C2 -/

/-- C2: the claim says `_validateBri` clamps every input into [1,254],
with inputs below 1 raised to 1.  The upper clamp works, but the lower
branch of the source assigns to a misspelled local (`brighness = 1`), so
inputs below 1 are returned unchanged: `_validateBri(0) = 0` and
`_validateBri(-5) = -5`, violating the spec's own invariant, which the
spec's design notes identify as a source typo.  This theorem evaluates the
embedded code at the failing inputs. -/
theorem C2_validateBri_low_clamp_dropped :
    validateBri 300 = 254 ∧ validateBri 0 = 0 ∧ validateBri (-5) = -5 ∧
      ¬(1 ≤ validateBri 0) := by
  decide

/-! ### C3 -/

/-- C3: `_send_command` returns true iff every per-field result of the
bridge's reply is affirmative (its leading key is 'success'), and exactly
one `set_light` call is issued per command — no retry. -/
theorem C3_send_result_iff_all_success :
    ∀ (s : DevState) (p : Payload) (t : Int) (c : Bool) (rs : List String),
      ((sendCommand s p t c rs).2.2 = true ↔ ∀ r ∈ rs, r = "success") ∧
      (sendCommand s p t c rs).2.1.length = 1 := by
  intro s p t c rs
  refine ⟨?_, rfl⟩
  show (List.all rs (fun r => r == "success") = true ↔ _)
  simp [List.all_eq_true]

/-! ### C8 -/

/-- C8: while a discovery is in progress (the shared guard flag is set), a
further discovery call for any bridge returns immediately as a no-op with
no bridge pulls, and the periodic update/sync step likewise does not run;
hence at most one discovery is in flight, in particular per bridge. -/
theorem C8_discovery_guard :
    ∀ (s : CtrlState) (hub : String) pl ps pg plu pgu (ok : Bool),
      s.discovery = true →
      discoverStep hub pl ps pg s = (s, true, []) ∧
      updateNodes hub plu pgu ok s = (s, true, []) := by
  intro s hub pl ps pg plu pgu ok h
  constructor
  · simp [discoverStep, h]
  · simp [updateNodes, h]

/-- A controller state with a discovery in progress, used as C8's witness. -/
def ctrlBusy : CtrlState :=
  { hubs := [("192.168.0.2", true)], lights := [], groups := [],
    scenes := [], nodes := ["aabbcc"], sceneLookup := [], discovery := true }

theorem C8_discovery_guard_witness :
    ctrlBusy.discovery = true ∧
    discoverStep "192.168.0.2" none none none ctrlBusy =
      (ctrlBusy, true, []) ∧
    updateNodes "192.168.0.2" none none true ctrlBusy =
      (ctrlBusy, true, []) :=
  ⟨rfl, C8_discovery_guard ctrlBusy "192.168.0.2" none none none none none
    true rfl⟩

/-! ### C10 -/

lemma pyIndex_none {α : Type} (l : List α) (i : Int)
    (h : i < -(l.length : Int) ∨ (l.length : Int) ≤ i) : pyIndex l i = none := by
  unfold pyIndex
  by_cases h0 : 0 ≤ i
  · rw [if_pos h0]
    apply List.get?_eq_none.mpr
    omega
  · rw [if_neg h0, if_neg]
    omega

/-- C10: the claim says any alert value outside 1..3 (effect value outside
1..2) fails with an out-of-range indexing error before any bridge call.
But Python list indexing accepts negative indices: value 0 gives index -1,
which selects the last table entry.  `setAlert` with value 0 succeeds and
sets alert 'lselect'; `setEffect` with value 0 succeeds and sets effect
'colorloop'. -/
theorem C10_counterexample_negative_index :
    (setAlert dev0 0 ["success"]).isSome = true ∧
    (setAlert dev0 0 ["success"]).map (fun r => r.1.alert) =
      some (some "lselect") ∧
    (setEffect dev0 0 ["success"]).isSome = true ∧
    (setEffect dev0 0 ["success"]).map (fun r => r.1.effect) =
      some (some "colorloop") := by
  refine ⟨rfl, rfl, rfl, rfl⟩

/-- C10 (amended): the alert/effect translation subtracts 1 and indexes the
fixed table with Python semantics, so it is well-defined exactly for alert
values in [-2,3] and effect values in [-1,2] (values ≤ 0 select from the
end of the table via negative indexing); outside those ranges the lookup
raises an indexing error before any bridge call is made. -/
theorem C10_amended_index_ranges :
    (∀ (s : DevState) (v : Int) (rs : List String), -2 ≤ v → v ≤ 3 →
      (setAlert s v rs).isSome = true) ∧
    (∀ (s : DevState) (v : Int) (rs : List String), v < -2 ∨ 3 < v →
      setAlert s v rs = none) ∧
    (∀ (s : DevState) (v : Int) (rs : List String), -1 ≤ v → v ≤ 2 →
      (setEffect s v rs).isSome = true) ∧
    (∀ (s : DevState) (v : Int) (rs : List String), v < -1 ∨ 2 < v →
      setEffect s v rs = none) := by
  refine ⟨?_, ?_, ?_, ?_⟩
  · intro s v rs h1 h2
    interval_cases v <;> simp [setAlert, pyIndex, HUE_ALERTS]
  · intro s v rs h
    have hn : pyIndex HUE_ALERTS (v - 1) = none := by
      apply pyIndex_none
      simp only [HUE_ALERTS, List.length]
      omega
    simp [setAlert, hn]
  · intro s v rs h1 h2
    interval_cases v <;> simp [setEffect, pyIndex, HUE_EFFECTS]
  · intro s v rs h
    have hn : pyIndex HUE_EFFECTS (v - 1) = none := by
      apply pyIndex_none
      simp only [HUE_EFFECTS, List.length]
      omega
    simp [setEffect, hn]

theorem C10_amended_witness :
    ((-2 : Int) ≤ 1 ∧ (1 : Int) ≤ 3 ∧
      (setAlert dev0 1 ["success"]).isSome = true) ∧
    ((4 : Int) > 3 ∧ setAlert dev0 4 ["success"] = none) ∧
    ((-1 : Int) ≤ 2 ∧ (2 : Int) ≤ 2 ∧
      (setEffect dev0 2 ["success"]).isSome = true) ∧
    ((3 : Int) > 2 ∧ setEffect dev0 3 ["success"] = none) :=
  ⟨⟨by decide, by decide,
      C10_amended_index_ranges.1 dev0 1 ["success"] (by decide) (by decide)⟩,
   ⟨by decide,
      C10_amended_index_ranges.2.1 dev0 4 ["success"] (Or.inr (by decide))⟩,
   ⟨by decide, by decide,
      C10_amended_index_ranges.2.2.1 dev0 2 ["success"] (by decide)
        (by decide)⟩,
   ⟨by decide,
      C10_amended_index_ranges.2.2.2 dev0 3 ["success"] (Or.inr (by decide))⟩⟩

/-! ### C9 -/

/-- C9: a light advertising "Extended color light" is classified as the
ExtendedColor node type, and the combined HSB command with hue 200,
saturation 100, brightness 150 (at the default 400 ms transition, device
already on) sends exactly the bridge payload
`{hue:200, sat:100, bri:150}` and sets the local hue, saturation and
brightness fields to those values. -/
theorem C9_extended_color_hsb :
    classifyLight "Extended color light" = some DevKind.ecolor ∧
    ∀ (s : DevState) (rs : List String), s.onS = some true →
      (setColorHSB s 200 100 150 400 rs).2.1 =
        [[("hue", HVal.hInt 200), ("sat", HVal.hInt 100),
          ("bri", HVal.hInt 150)]] ∧
      (setColorHSB s 200 100 150 400 rs).1.hue = 200 ∧
      (setColorHSB s 200 100 150 400 rs).1.saturation = 100 ∧
      (setColorHSB s 200 100 150 400 rs).1.brightness = 150 := by
  refine ⟨rfl, ?_⟩
  intro s rs h
  have hcond : (true && (s.onS != some true)) = false := by simp [h]
  refine ⟨?_, ?_, ?_, ?_⟩ <;>
    simp [setColorHSB, sendCommand, validateBriSt, validateBri, bri2st,
      hcond, setKey, hasKey, getKey, List.find?, DEF_TRANSTIME]

theorem C9_extended_color_hsb_witness :
    dev0.onS = some true ∧
    (setColorHSB dev0 200 100 150 400 ["success"]).2.1 =
      [[("hue", HVal.hInt 200), ("sat", HVal.hInt 100),
        ("bri", HVal.hInt 150)]] ∧
    (setColorHSB dev0 200 100 150 400 ["success"]).1.hue = 200 :=
  ⟨rfl, (C9_extended_color_hsb.2 dev0 ["success"] rfl).1,
    (C9_extended_color_hsb.2 dev0 ["success"] rfl).2.1⟩

/-! ### C4 -/

/-- C4: the claim says every command other than the fast and fade variants
uses the device's currently configured transition time.  Counterexample:
on a device configured with the 400 ms default, the combined HSB command
with query duration 1000 ms places transitiontime 10 (deciseconds of the
query value) in the payload, whereas the configured 400 ms would place
nothing (and rounds to 4, not 10). -/
theorem C4_counterexample_query_duration :
    dev0.transitiontime = DEF_TRANSTIME ∧
    getKey ((setColorHSB dev0 200 100 150 1000 ["success"]).2.1.headD [])
        "transitiontime" = some (HVal.hInt 10) ∧
    (10 : Int) ≠ roundHalfEven DEF_TRANSTIME 100 := by
  refine ⟨rfl, rfl, by decide⟩

/-- C4 (amended): a transitiontime field is placed in the bridge payload
exactly when the effective transition differs from the 400 ms default, and
then holds the millisecond value divided by 100 and rounded; DFON/DFOF
force 0 ms, FDUP/FDDOWN force 4000 ms, the color commands carrying a
duration query field (SET_HSB, SET_COLOR_XY, SET_COLOR_RGB) use that
query value, and the remaining commands (DON, DOF, BRT, DIM, FDSTOP,
SET_BRI, SET_HUE, SET_SAT, SET_KEL, SET_CTBR, SET_ALERT, SET_EFFECT,
SET_COLOR) use the device's configured transition time (default
400 ms). -/
theorem C4_amended_transition_times :
    (∀ (s : DevState) (p : Payload) (t : Int) (c : Bool) (rs : List String),
      hasKey p "transitiontime" = false →
      getKey ((sendCommand s p t c rs).2.1.headD []) "transitiontime" =
        expectedTrans t) ∧
    (∀ (s : DevState) (value : Option Int) (rs : List String),
      getKey ((setBaseCtl s "DFON" value rs).2.1.headD []) "transitiontime" =
        some (HVal.hInt 0) ∧
      getKey ((setBaseCtl s "DFOF" value rs).2.1.headD []) "transitiontime" =
        some (HVal.hInt 0)) ∧
    (∀ (s : DevState) (value : Option Int) (rs : List String),
      getKey ((setBaseCtl s "FDUP" value rs).2.1.headD []) "transitiontime" =
        some (HVal.hInt 40) ∧
      getKey ((setBaseCtl s "FDDOWN" value rs).2.1.headD [])
        "transitiontime" = some (HVal.hInt 40)) ∧
    (∀ (s : DevState) (value : Option Int) (v k br : Int)
      (rs : List String),
      getKey ((setBaseCtl s "DON" value rs).2.1.headD []) "transitiontime" =
        expectedTrans s.transitiontime ∧
      getKey ((setBaseCtl s "DOF" value rs).2.1.headD []) "transitiontime" =
        expectedTrans s.transitiontime ∧
      getKey ((setBaseCtl s "BRT" value rs).2.1.headD []) "transitiontime" =
        expectedTrans s.transitiontime ∧
      getKey ((setBaseCtl s "DIM" value rs).2.1.headD []) "transitiontime" =
        expectedTrans s.transitiontime ∧
      getKey ((setBaseCtl s "FDSTOP" value rs).2.1.headD [])
        "transitiontime" = expectedTrans s.transitiontime ∧
      getKey ((setBrightness s v rs).2.1.headD []) "transitiontime" =
        expectedTrans s.transitiontime ∧
      getKey ((setHue s v rs).2.1.headD []) "transitiontime" =
        expectedTrans s.transitiontime ∧
      getKey ((setSat s v rs).2.1.headD []) "transitiontime" =
        expectedTrans s.transitiontime ∧
      getKey ((setCt s v rs).2.1.headD []) "transitiontime" =
        expectedTrans s.transitiontime ∧
      getKey ((setCtBri s br k rs).2.1.headD []) "transitiontime" =
        expectedTrans s.transitiontime) ∧
    (∀ (s : DevState) (v : Int) (rs : List String)
      (res : DevState × List Payload × Bool),
      (setAlert s v rs = some res →
        getKey (res.2.1.headD []) "transitiontime" =
          expectedTrans s.transitiontime) ∧
      (setEffect s v rs = some res →
        getKey (res.2.1.headD []) "transitiontime" =
          expectedTrans s.transitiontime)) ∧
    (∀ (palette : List (Rat × Rat)) (s : DevState) (v : Int)
      (rs : List String) (res : DevState × List Payload × Bool),
      setColor palette s v rs = some res →
      getKey (res.2.1.headD []) "transitiontime" =
        expectedTrans s.transitiontime) ∧
    (∀ (s : DevState) (h sat br d : Int) (x y : Rat)
      (conv : Int → Int → Int → Rat × Rat) (r g b : Int)
      (rs : List String),
      getKey ((setColorHSB s h sat br d rs).2.1.headD []) "transitiontime" =
        expectedTrans d ∧
      getKey ((setColorXY s x y d br rs).2.1.headD []) "transitiontime" =
        expectedTrans d ∧
      getKey ((setColorRGB conv s r g b d br rs).2.1.headD [])
        "transitiontime" = expectedTrans d) := by
  refine ⟨fun s p t c rs hp => sendCommand_transfield s p t c rs hp,
    ?_, ?_, ?_, ?_, ?_, ?_⟩
  · intro s value rs
    constructor
    · rcases value with _ | v
      · simp [setBaseCtl]
        exact (sendCommand_transfield _ [] _ _ rs rfl).trans (by decide)
      · simp [setBaseCtl]
        exact (sendCommand_transfield _ _ _ _ rs
          (hasKey_setKey_nil "bri" _ _ (by decide))).trans (by decide)
    · simp [setBaseCtl]
      exact (sendCommand_transfield _ _ _ _ rs
        (hasKey_setKey_nil "on" _ _ (by decide))).trans (by decide)
  · intro s value rs
    constructor
    · simp [setBaseCtl]
      exact (sendCommand_transfield _ _ _ _ rs
        (hasKey_setKey_nil "bri_inc" _ _ (by decide))).trans (by decide)
    · simp [setBaseCtl]
      exact (sendCommand_transfield _ _ _ _ rs
        (hasKey_setKey_nil "bri_inc" _ _ (by decide))).trans (by decide)
  · intro s value v k br rs
    refine ⟨?_, ?_, ?_, ?_, ?_, ?_, ?_, ?_, ?_, ?_⟩
    · rcases value with _ | w
      · simp [setBaseCtl]
        exact sendCommand_transfield _ [] _ _ rs rfl
      · simp [setBaseCtl]
        exact sendCommand_transfield _ _ _ _ rs
          (hasKey_setKey_nil "bri" _ _ (by decide))
    · simp [setBaseCtl]
      exact sendCommand_transfield _ _ _ _ rs
        (hasKey_setKey_nil "on" _ _ (by decide))
    · simp [setBaseCtl]
      exact sendCommand_transfield _ _ _ _ rs
        (hasKey_setKey_nil "bri_inc" _ _ (by decide))
    · simp [setBaseCtl]
      exact sendCommand_transfield _ _ _ _ rs
        (hasKey_setKey_nil "bri_inc" _ _ (by decide))
    · simp [setBaseCtl]
      exact sendCommand_transfield _ _ _ _ rs
        (hasKey_setKey_nil "bri_inc" _ _ (by decide))
    · simp only [setBrightness]
      exact sendCommand_transfield _ _ _ _ rs
        (hasKey_setKey_nil "bri" _ _ (by decide))
    · simp only [setHue]
      exact sendCommand_transfield _ _ _ _ rs
        (hasKey_setKey_nil "hue" _ _ (by decide))
    · simp only [setSat]
      exact sendCommand_transfield _ _ _ _ rs
        (hasKey_setKey_nil "sat" _ _ (by decide))
    · simp only [setCt]
      exact sendCommand_transfield _ _ _ _ rs
        (hasKey_setKey_nil "ct" _ _ (by decide))
    · simp only [setCtBri]
      exact sendCommand_transfield _ _ _ _ rs
        (hasKey_setKey2_nil "ct" "bri" _ _ _ (by decide) (by decide))
  · intro s v rs res
    constructor
    · intro h
      rcases hpi : pyIndex HUE_ALERTS (v - 1) with _ | a
      · simp [setAlert, hpi] at h
      · simp only [setAlert, hpi, Option.some.injEq] at h
        rw [← h]
        exact sendCommand_transfield _ _ _ _ rs
          (hasKey_setKey_nil "alert" _ _ (by decide))
    · intro h
      rcases hpi : pyIndex HUE_EFFECTS (v - 1) with _ | e
      · simp [setEffect, hpi] at h
      · simp only [setEffect, hpi, Option.some.injEq] at h
        rw [← h]
        exact sendCommand_transfield _ _ _ _ rs
          (hasKey_setKey_nil "effect" _ _ (by decide))
  · intro palette s v rs res h
    rcases hpi : pyIndex palette (v - 1) with _ | xy
    · simp [setColor, hpi] at h
    · simp only [setColor, hpi, Option.some.injEq] at h
      rw [← h]
      exact sendCommand_transfield _ _ _ _ rs
        (hasKey_setKey_nil "xy" _ _ (by decide))
  · intro s h sat br d x y conv r g b rs
    refine ⟨?_, ?_, ?_⟩
    · simp only [setColorHSB]
      exact sendCommand_transfield _ _ _ _ rs
        (hasKey_setKey3_nil "hue" "sat" "bri" _ _ _ _ (by decide)
          (by decide) (by decide))
    · simp only [setColorXY]
      exact sendCommand_transfield _ _ _ _ rs
        (hasKey_setKey2_nil "xy" "bri" _ _ _ (by decide) (by decide))
    · simp only [setColorRGB]
      exact sendCommand_transfield _ _ _ _ rs
        (hasKey_setKey2_nil "xy" "bri" _ _ _ (by decide) (by decide))

theorem C4_amended_witness :
    (hasKey ([] : Payload) "transitiontime" = false ∧
      getKey ((sendCommand dev0 [] 1000 false ["success"]).2.1.headD [])
        "transitiontime" = some (HVal.hInt 10)) ∧
    (setAlert dev0 1 ["success"] =
        some ((setAlert dev0 1 ["success"]).getD (dev0, [], false)) ∧
      getKey ((((setAlert dev0 1 ["success"]).getD
          (dev0, [], false)).2.1).headD [])
        "transitiontime" = expectedTrans dev0.transitiontime) :=
  ⟨⟨rfl, (C4_amended_transition_times.1 dev0 [] 1000 false ["success"]
      rfl).trans (by decide)⟩,
   ⟨rfl, (C4_amended_transition_times.2.2.2.2.1 dev0 1 ["success"]
      ((setAlert dev0 1 ["success"]).getD (dev0, [], false))).1 rfl⟩⟩

/-! ### C1 -/

lemma setBaseCtl_DOF_state (s : DevState) (rs : List String)
    (h : s.transitiontime ≠ DEF_TRANSTIME) :
    (setBaseCtl s "DOF" none rs).1 =
      { s with onS := some false, st := 0,
               saved_brightness := some s.brightness } := by
  have hb : (s.transitiontime != DEF_TRANSTIME) = true := by
    simpa [bne_iff_ne] using h
  simp [setBaseCtl, sendCommand, hb]

lemma setBaseCtl_DON_none (s : DevState) (rs : List String) :
    setBaseCtl s "DON" none rs =
      ((sendCommand { s with onS := some false, st := bri2st s.brightness }
          [] s.transitiontime true rs).1,
       (sendCommand { s with onS := some false, st := bri2st s.brightness }
          [] s.transitiontime true rs).2.1,
       some (sendCommand { s with onS := some false, st := bri2st s.brightness }
          [] s.transitiontime true rs).2.2) := by
  simp [setBaseCtl]

/-- C1: turning a device off (DOF/DFOF) with an effective transition time
other than the 400 ms default saves the brightness in effect at that
moment; the next command that turns the device back on and whose payload
carries no 'bri' field gets the saved brightness added to its payload, and
the saved value is cleared so it is applied at most once.  Stated for
device states satisfying the spec's brightness invariant (1 ≤ brightness,
so the Python truthiness test on the saved value passes). -/
theorem C1_saved_brightness_workaround :
    (∀ (s : DevState) (rs : List String),
      s.transitiontime ≠ DEF_TRANSTIME →
      (setBaseCtl s "DOF" none rs).1.saved_brightness = some s.brightness) ∧
    (∀ (s : DevState) (rs : List String),
      (setBaseCtl s "DFOF" none rs).1.saved_brightness = some s.brightness) ∧
    (∀ (s : DevState) (p : Payload) (t : Int) (rs : List String) (b : Int),
      s.onS ≠ some true → s.saved_brightness = some b → 0 < b →
      hasKey p "bri" = false →
      getKey ((sendCommand s p t true rs).2.1.headD []) "bri" =
        some (HVal.hInt b) ∧
      (sendCommand s p t true rs).1.saved_brightness = none) ∧
    (∀ (s : DevState) (rs1 rs2 : List String), 1 ≤ s.brightness →
      s.transitiontime ≠ DEF_TRANSTIME →
      getKey (((setBaseCtl (setBaseCtl s "DOF" none rs1).1 "DON" none
          rs2).2.1).headD []) "bri" = some (HVal.hInt s.brightness) ∧
      (setBaseCtl (setBaseCtl s "DOF" none rs1).1 "DON" none
          rs2).1.saved_brightness = none) := by
  have part3 : ∀ (s : DevState) (p : Payload) (t : Int) (rs : List String)
      (b : Int), s.onS ≠ some true → s.saved_brightness = some b → 0 < b →
      hasKey p "bri" = false →
      getKey ((sendCommand s p t true rs).2.1.headD []) "bri" =
        some (HVal.hInt b) ∧
      (sendCommand s p t true rs).1.saved_brightness = none := by
    intro s p t rs b hOn hSaved hPos hBri
    have hCond : (true && (s.onS != some true)) = true := by
      simp [bne_iff_ne, hOn]
    have hTruthy : pyTruthyOpt (some b) = true := by
      simp only [pyTruthyOpt, bne_iff_ne]
      omega
    have hONkey : ("bri" : String) ≠ "on" := by decide
    have hTTkey : ("bri" : String) ≠ "transitiontime" := by decide
    unfold sendCommand
    by_cases ht : (t != DEF_TRANSTIME) = true
    · have hbri1 : hasKey (setKey (setKey p "transitiontime"
          (HVal.hInt (roundHalfEven t 100))) "on" (HVal.hBool true))
          "bri" = false := by
        rw [hasKey_setKey_ne _ _ _ _ hONkey,
          hasKey_setKey_ne _ _ _ _ hTTkey]
        exact hBri
      constructor
      · simp [ht, hCond, hSaved, hTruthy, hbri1, getKey_setKey_self]
      · simp [ht, hCond, hSaved, hTruthy, hbri1]
    · have hbri1 : hasKey (setKey p "on" (HVal.hBool true)) "bri" = false := by
        rw [hasKey_setKey_ne _ _ _ _ hONkey]
        exact hBri
      rw [Bool.not_eq_true] at ht
      constructor
      · simp [ht, hCond, hSaved, hTruthy, hbri1, getKey_setKey_self]
      · simp [ht, hCond, hSaved, hTruthy, hbri1]
  refine ⟨?_, ?_, part3, ?_⟩
  · intro s rs h
    rw [setBaseCtl_DOF_state s rs h]
  · intro s rs
    simp [setBaseCtl, sendCommand, DEF_TRANSTIME]
  · intro s rs1 rs2 hb1 ht
    rw [setBaseCtl_DOF_state s rs1 ht]
    rw [setBaseCtl_DON_none]
    have := part3
      { s with onS := some false, st := bri2st s.brightness,
               saved_brightness := some s.brightness }
      [] s.transitiontime rs2 s.brightness (by simp) (by simp) (by omega) rfl
    exact ⟨this.1, this.2⟩

/-- A device state with a non-default transition time, witnessing C1. -/
def devT : DevState := { dev0 with transitiontime := 1000 }

theorem C1_saved_brightness_witness :
    (1 ≤ devT.brightness ∧ devT.transitiontime ≠ DEF_TRANSTIME) ∧
    getKey (((setBaseCtl (setBaseCtl devT "DOF" none ["success"]).1 "DON"
        none ["success"]).2.1).headD []) "bri" = some (HVal.hInt 100) ∧
    (setBaseCtl (setBaseCtl devT "DOF" none ["success"]).1 "DON" none
        ["success"]).1.saved_brightness = none :=
  ⟨⟨by decide, by decide⟩,
    (C1_saved_brightness_workaround.2.2.2 devT ["success"] ["success"]
      (by decide) (by decide)).1,
    (C1_saved_brightness_workaround.2.2.2 devT ["success"] ["success"]
      (by decide) (by decide)).2⟩

/-! ### C5 -/

/-- A dimmable light inventory entry used in concrete discovery states. -/
def lightA : Light :=
  { uniqueid := "00:17:88:01:aa-0b", lname := "Lamp A",
    ltype := "Dimmable light" }

/-- A second light, reported by the second bridge. -/
def lightB : Light :=
  { uniqueid := "00:17:88:01:bb-0b", lname := "Lamp B",
    ltype := "Dimmable light" }

/-- A one-member group, as reported by a bridge. -/
def grpA : HGroup := { gname := "Room", gtype := "Room", lights := ["1"] }

/-- A controller state holding a prior (non-empty) snapshot for its single
bridge. -/
def ctrlPrev : CtrlState :=
  { hubs := [("192.168.0.2", true)],
    lights := [("192.168.0.2", some [("1", lightA)])],
    groups := [("192.168.0.2", some [("1", grpA)])],
    scenes := [("192.168.0.2", some [])],
    nodes := ["00:17:88:01:aa-0b", "huegrp1"],
    sceneLookup := [], discovery := false }

/-- C5: the claim says a failed lights pull aborts discovery with all prior
state, including the stored light snapshot, left unchanged.  The abort and
the preservation of nodes, groups, scenes are real, but the source assigns
`self.lights[hub_idx] = self._get_lights(hub_idx)` before checking the
result, so the prior lights snapshot is overwritten with the failed (None)
pull. -/
theorem C5_counterexample_lights_snapshot_overwritten :
    (discoverStep "192.168.0.2" none none none ctrlPrev).2.1 = false ∧
    (discoverStep "192.168.0.2" none none none ctrlPrev).1.lights =
      [("192.168.0.2", none)] ∧
    ctrlPrev.lights ≠ [("192.168.0.2", none)] ∧
    (discoverStep "192.168.0.2" none none none ctrlPrev).1.nodes =
      ctrlPrev.nodes := by
  refine ⟨rfl, rfl, by decide, rfl⟩

lemma groupFold_sl (nh : Nat) (hub : String)
    (ps : Option (List (String × Scene))) (hps : invTruthy ps = false) :
    ∀ (gl : List (String × HGroup)) (ns : List String)
      (sl : List SceneEntry),
      (gl.foldl (groupStep nh hub ps) (ns, sl)).2 = sl := by
  intro gl
  induction gl with
  | nil => intro ns sl; rfl
  | cons g gl ih =>
    intro ns sl
    have hstep : (groupStep nh hub ps (ns, sl) g).2 = sl := by
      unfold groupStep
      by_cases h1 : (!g.2.lights.isEmpty) = true
      · by_cases h2 : groupAddr nh hub g.1 ∈ ns
        · simp [h1, h2]
        · simp [h1, h2, hps]
      · rw [Bool.not_eq_true] at h1
        by_cases h2 : groupAddr nh hub g.1 ∈ ns
        · simp [h1, h2]
        · simp [h1, h2]
    rw [List.foldl_cons, ← Prod.mk.eta (p := groupStep nh hub ps (ns, sl) g),
      ih, hstep]

/-- C5 (amended): a failed lights pull aborts the bridge's discovery with a
failure result; the tracked node set, the group and scene snapshots and
the scene lookup are unchanged, but the bridge's stored lights snapshot is
overwritten with the failed pull result.  A failed scenes pull does not
abort the pass (the result is still success when groups succeed) and only
skips scene-lookup construction; a failed groups pull makes the pass
return failure. -/
theorem C5_amended_discovery_failures :
    (∀ (s : CtrlState) (hub : String) (pl : Option (List (String × Light)))
      (ps : Option (List (String × Scene)))
      (pg : Option (List (String × HGroup))),
      hubConnected s hub = true → s.discovery = false →
      invTruthy pl = false →
      (discoverStep hub pl ps pg s).2.1 = false ∧
      (discoverStep hub pl ps pg s).1.nodes = s.nodes ∧
      (discoverStep hub pl ps pg s).1.groups = s.groups ∧
      (discoverStep hub pl ps pg s).1.scenes = s.scenes ∧
      (discoverStep hub pl ps pg s).1.sceneLookup = s.sceneLookup ∧
      (discoverStep hub pl ps pg s).1.lights = setAssoc s.lights hub pl ∧
      (discoverStep hub pl ps pg s).1.discovery = false) ∧
    (∀ (s : CtrlState) (hub : String) (pl : Option (List (String × Light)))
      (ps : Option (List (String × Scene)))
      (pg : Option (List (String × HGroup))),
      hubConnected s hub = true → s.discovery = false →
      invTruthy pl = true → invTruthy ps = false → invTruthy pg = true →
      (discoverStep hub pl ps pg s).2.1 = true ∧
      (discoverStep hub pl ps pg s).1.sceneLookup = s.sceneLookup) ∧
    (∀ (s : CtrlState) (hub : String) (pl : Option (List (String × Light)))
      (ps : Option (List (String × Scene)))
      (pg : Option (List (String × HGroup))),
      hubConnected s hub = true → s.discovery = false →
      invTruthy pl = true → invTruthy pg = false →
      (discoverStep hub pl ps pg s).2.1 = false) := by
  refine ⟨?_, ?_, ?_⟩
  · intro s hub pl ps pg hconn hdisc hpl
    refine ⟨?_, ?_, ?_, ?_, ?_, ?_, ?_⟩ <;>
      simp [discoverStep, hconn, hdisc, hpl]
  · intro s hub pl ps pg hconn hdisc hpl hps hpg
    constructor
    · simp [discoverStep, hconn, hdisc, hpl, hpg]
    · simp [discoverStep, hconn, hdisc, hpl, hpg,
        groupFold_sl _ _ ps hps]
  · intro s hub pl ps pg hconn hdisc hpl hpg
    simp [discoverStep, hconn, hdisc, hpl, hpg]

theorem C5_amended_witness :
    (hubConnected ctrlPrev "192.168.0.2" = true ∧
      ctrlPrev.discovery = false ∧
      invTruthy (none : Option (List (String × Light))) = false ∧
      (discoverStep "192.168.0.2" none none none ctrlPrev).2.1 = false) ∧
    ((discoverStep "192.168.0.2" (some [("1", lightA)]) (some [])
        (some [("1", grpA)]) ctrlPrev).2.1 = true ∧
      (discoverStep "192.168.0.2" (some [("1", lightA)]) (some [])
        (some [("1", grpA)]) ctrlPrev).1.sceneLookup =
        ctrlPrev.sceneLookup) ∧
    (discoverStep "192.168.0.2" (some [("1", lightA)]) (some [])
        (some []) ctrlPrev).2.1 = false :=
  ⟨⟨rfl, rfl, rfl,
      (C5_amended_discovery_failures.1 ctrlPrev "192.168.0.2" none none
        none rfl rfl rfl).1⟩,
   C5_amended_discovery_failures.2.1 ctrlPrev "192.168.0.2"
      (some [("1", lightA)]) (some []) (some [("1", grpA)]) rfl rfl rfl rfl
      rfl,
   C5_amended_discovery_failures.2.2 ctrlPrev "192.168.0.2"
      (some [("1", lightA)]) (some []) (some []) rfl rfl rfl rfl⟩

/-! ### C6 -/

/-- A two-bridge controller state with empty snapshots. -/
def ctrl2 : CtrlState :=
  { hubs := [("10.0.0.7", true), ("10.1.1.7", true)],
    lights := [], groups := [], scenes := [], nodes := [],
    sceneLookup := [], discovery := false }

/-- C6: the claim says the group-address disambiguation makes any two
bridges reporting the same bridge-local group id produce distinct
addresses that coexist as distinct records.  But the suffix is only the
last dot-component of the bridge identity: bridges 10.0.0.7 and 10.1.1.7
share the component "7", so group id "1" yields the same address
"huegrp71" on both, and after discovering both bridges only one group
record exists. -/
theorem C6_counterexample_suffix_collision :
    ("10.0.0.7" : String) ≠ "10.1.1.7" ∧
    groupAddr 2 "10.0.0.7" "1" = groupAddr 2 "10.1.1.7" "1" ∧
    (discoverStep "10.1.1.7" (some [("1", lightB)]) (some [])
        (some [("1", grpA)])
        (discoverStep "10.0.0.7" (some [("1", lightA)]) (some [])
          (some [("1", grpA)]) ctrl2).1).1.nodes =
      ["00:17:88:01:aa-0b", "huegrp71", "00:17:88:01:bb-0b"] := by
  refine ⟨by decide, by decide, by decide⟩

/-- C6 (amended): with more than one bridge configured, the synthetic
group address inserts the last dot-component of the owning bridge's
identity between the fixed prefix and the group id; two bridges reporting
the same group id get distinct addresses — and hence coexisting records —
exactly when their last components differ (e.g. last octets 7 and 8). -/
theorem C6_amended_group_addresses :
    (∀ (n : Nat) (h1 h2 g : String), 1 < n →
      lastComp h1 ≠ lastComp h2 →
      groupAddr n h1 g ≠ groupAddr n h2 g) ∧
    (discoverStep "10.0.0.8" (some [("1", lightB)]) (some [])
        (some [("1", grpA)])
        (discoverStep "10.0.0.7" (some [("1", lightA)]) (some [])
          (some [("1", grpA)])
          { ctrl2 with hubs := [("10.0.0.7", true), ("10.0.0.8", true)]
          }).1).1.nodes =
      ["00:17:88:01:aa-0b", "huegrp71", "00:17:88:01:bb-0b", "huegrp81"] := by
  constructor
  · intro n h1 h2 g hn hne heq
    apply hne
    unfold groupAddr at heq
    rw [if_pos hn, if_pos hn] at heq
    have hd := congrArg String.data heq
    simp only [String.data_append] at hd
    exact String.ext
      (List.append_cancel_left (List.append_cancel_right hd))
  · decide

theorem C6_amended_witness :
    (1 < 2 ∧ lastComp "10.0.0.7" ≠ lastComp "10.0.0.8") ∧
    groupAddr 2 "10.0.0.7" "1" ≠ groupAddr 2 "10.0.0.8" "1" :=
  ⟨⟨by decide, by decide⟩,
    C6_amended_group_addresses.1 2 "10.0.0.7" "10.0.0.8" "1" (by decide)
      (by decide)⟩

/-! ### C7 -/

/-- The node-set effect of the group loop, separated from its scene-lookup
effect. -/
def gPhase (nh : Nat) (hub : String) (gl : List (String × HGroup))
    (ns : List String) : List String :=
  gl.foldl (fun ns g =>
    if !g.2.lights.isEmpty then
      (if groupAddr nh hub g.1 ∈ ns then ns
       else ns ++ [groupAddr nh hub g.1])
    else
      (if groupAddr nh hub g.1 ∈ ns then delNode ns (groupAddr nh hub g.1)
       else ns)) ns

lemma groupStep_fst (nh : Nat) (hub : String)
    (ps : Option (List (String × Scene))) (ns : List String)
    (sl : List SceneEntry) (g : String × HGroup) :
    (groupStep nh hub ps (ns, sl) g).1 =
      (if !g.2.lights.isEmpty then
        (if groupAddr nh hub g.1 ∈ ns then ns
         else ns ++ [groupAddr nh hub g.1])
      else
        (if groupAddr nh hub g.1 ∈ ns then delNode ns (groupAddr nh hub g.1)
         else ns)) := by
  unfold groupStep
  by_cases h1 : (!g.2.lights.isEmpty) = true
  · by_cases h2 : groupAddr nh hub g.1 ∈ ns
    · simp [h1, h2]
    · simp [h1, h2]
  · rw [Bool.not_eq_true] at h1
    by_cases h2 : groupAddr nh hub g.1 ∈ ns
    · simp [h1, h2]
    · simp [h1, h2]

lemma groupFold_fst (nh : Nat) (hub : String)
    (ps : Option (List (String × Scene))) :
    ∀ (gl : List (String × HGroup)) (ns : List String)
      (sl : List SceneEntry),
      (gl.foldl (groupStep nh hub ps) (ns, sl)).1 = gPhase nh hub gl ns := by
  intro gl
  induction gl with
  | nil => intro ns sl; rfl
  | cons g gl ih =>
    intro ns sl
    rw [List.foldl_cons, ← Prod.mk.eta (p := groupStep nh hub ps (ns, sl) g),
      ih, groupStep_fst]
    rfl

lemma mem_lightPhase (a : String) :
    ∀ (ls : List (String × Light)) (ns : List String),
      a ∈ lightPhase ls ns ↔
        a ∈ ns ∨ ∃ l ∈ ls, (classifyLight l.2.ltype).isSome = true ∧
          id_2_addr l.2.uniqueid = a := by
  intro ls
  induction ls with
  | nil => intro ns; simp [lightPhase]
  | cons l ls ih =>
    intro ns
    have hfold : lightPhase (l :: ls) ns = lightPhase ls
        (if id_2_addr l.2.uniqueid ∈ ns then ns
         else match classifyLight l.2.ltype with
           | some _ => ns ++ [id_2_addr l.2.uniqueid]
           | none => ns) := by
      simp only [lightPhase, List.foldl_cons]
    have hstep : a ∈ (if id_2_addr l.2.uniqueid ∈ ns then ns
        else match classifyLight l.2.ltype with
          | some _ => ns ++ [id_2_addr l.2.uniqueid]
          | none => ns) ↔
        a ∈ ns ∨ ((classifyLight l.2.ltype).isSome = true ∧
          id_2_addr l.2.uniqueid = a) := by
      by_cases h1 : id_2_addr l.2.uniqueid ∈ ns
      · rw [if_pos h1]
        constructor
        · exact Or.inl
        · rintro (h | ⟨_, rfl⟩)
          · exact h
          · exact h1
      · rw [if_neg h1]
        rcases hcl : classifyLight l.2.ltype with _ | k
        · simp [hcl]
        · simp [hcl, List.mem_append, eq_comm]
    rw [hfold, ih, hstep]
    simp only [List.exists_mem_cons_iff]
    tauto

/-- The last group-loop operation touching address `a`: `some true` when
the last group with that address has members (insert), `some false` when
it is empty (remove), `none` when no group maps to `a`. -/
def lastGroupOp (nh : Nat) (hub a : String) :
    List (String × HGroup) → Option Bool
  | [] => none
  | g :: gl =>
    match lastGroupOp nh hub a gl with
    | some b => some b
    | none =>
      if groupAddr nh hub g.1 = a then some (!g.2.lights.isEmpty) else none

lemma mem_gPhase (nh : Nat) (hub a : String) :
    ∀ (gl : List (String × HGroup)) (ns : List String),
      a ∈ gPhase nh hub gl ns ↔
        (match lastGroupOp nh hub a gl with
         | some b => b = true
         | none => a ∈ ns) := by
  intro gl
  induction gl with
  | nil => intro ns; simp [gPhase, lastGroupOp]
  | cons g gl ih =>
    intro ns
    have hfold : gPhase nh hub (g :: gl) ns = gPhase nh hub gl
        (if !g.2.lights.isEmpty then
          (if groupAddr nh hub g.1 ∈ ns then ns
           else ns ++ [groupAddr nh hub g.1])
        else
          (if groupAddr nh hub g.1 ∈ ns then
            delNode ns (groupAddr nh hub g.1) else ns)) := by
      simp only [gPhase, List.foldl_cons]
    rw [hfold, ih]
    rcases hlo : lastGroupOp nh hub a gl with _ | b
    · simp only [lastGroupOp, hlo]
      by_cases ha : groupAddr nh hub g.1 = a
      · rw [if_pos ha]
        subst ha
        by_cases h1 : (!g.2.lights.isEmpty) = true
        · by_cases h2 : groupAddr nh hub g.1 ∈ ns
          · simp [h1, h2]
          · simp [h1, h2]
        · rw [Bool.not_eq_true] at h1
          by_cases h2 : groupAddr nh hub g.1 ∈ ns
          · simp [h1, h2, delNode, List.mem_filter]
          · simp [h1, h2]
      · rw [if_neg ha]
        have ha' : a ≠ groupAddr nh hub g.1 := fun hc => ha hc.symm
        by_cases h1 : (!g.2.lights.isEmpty) = true
        · by_cases h2 : groupAddr nh hub g.1 ∈ ns
          · simp [h1, h2]
          · simp [h1, h2, List.mem_append, ha']
        · rw [Bool.not_eq_true] at h1
          by_cases h2 : groupAddr nh hub g.1 ∈ ns
          · simp [h1, h2, delNode, List.mem_filter, ha']
          · simp [h1, h2]
    · simp only [lastGroupOp, hlo]

lemma discoverStep_hubs (hub : String) (pl : Option (List (String × Light)))
    (ps : Option (List (String × Scene)))
    (pg : Option (List (String × HGroup))) (s : CtrlState) :
    (discoverStep hub pl ps pg s).1.hubs = s.hubs := by
  unfold discoverStep
  by_cases hg : hubConnected s hub = false ∨ s.discovery = true
  · rw [if_pos hg]
  · rw [if_neg hg]
    by_cases hpl : invTruthy pl = false
    · simp [hpl]
    · by_cases hpg : invTruthy pg = false
      · simp [hpl, hpg]
      · simp [hpl, hpg]

lemma discoverStep_discovery (hub : String)
    (pl : Option (List (String × Light)))
    (ps : Option (List (String × Scene)))
    (pg : Option (List (String × HGroup))) (s : CtrlState) :
    (discoverStep hub pl ps pg s).1.discovery = s.discovery := by
  unfold discoverStep
  by_cases hg : hubConnected s hub = false ∨ s.discovery = true
  · rw [if_pos hg]
  · have hdisc : s.discovery = false := by
      rcases hg2 : s.discovery with _ | _
      · rfl
      · exact absurd (Or.inr hg2) hg
    rw [if_neg hg]
    by_cases hpl : invTruthy pl = false
    · simp [hpl, hdisc]
    · by_cases hpg : invTruthy pg = false
      · simp [hpl, hpg, hdisc]
      · simp [hpl, hpg, hdisc]

lemma discoverStep_nodes (hub : String)
    (pl : Option (List (String × Light)))
    (ps : Option (List (String × Scene)))
    (pg : Option (List (String × HGroup))) (s : CtrlState)
    (hconn : hubConnected s hub = true) (hdisc : s.discovery = false) :
    (discoverStep hub pl ps pg s).1.nodes =
      if invTruthy pl = false then s.nodes
      else if invTruthy pg = false then lightPhase (pl.getD []) s.nodes
      else gPhase s.hubs.length hub (pg.getD [])
        (lightPhase (pl.getD []) s.nodes) := by
  have hg : ¬(hubConnected s hub = false ∨ s.discovery = true) := by
    simp [hconn, hdisc]
  unfold discoverStep
  rw [if_neg hg]
  by_cases hpl : invTruthy pl = false
  · simp [hpl]
  · by_cases hpg : invTruthy pg = false
    · simp [hpl, hpg]
    · simp [hpl, hpg, groupFold_fst]

/-- C7: discovery is idempotent on the tracked node set — with the bridge
inventory unchanged, a second discovery pass neither adds nor removes any
tracked record: its node set equals the one after the first pass. -/
theorem C7_discovery_idempotent :
    ∀ (hub : String) (pl : Option (List (String × Light)))
      (ps : Option (List (String × Scene)))
      (pg : Option (List (String × HGroup))) (s : CtrlState) (a : String),
      (a ∈ (discoverStep hub pl ps pg
          (discoverStep hub pl ps pg s).1).1.nodes ↔
        a ∈ (discoverStep hub pl ps pg s).1.nodes) := by
  intro hub pl ps pg s a
  by_cases hg : hubConnected s hub = false ∨ s.discovery = true
  · have h1 : discoverStep hub pl ps pg s = (s, true, []) := by
      unfold discoverStep
      rw [if_pos hg]
    simp [h1]
  · have hconn : hubConnected s hub = true := by
      rcases hc : hubConnected s hub with _ | _
      · exact absurd (Or.inl hc) hg
      · rfl
    have hdisc : s.discovery = false := by
      rcases hd : s.discovery with _ | _
      · rfl
      · exact absurd (Or.inr hd) hg
    have hhubs := discoverStep_hubs hub pl ps pg s
    have hconn1 : hubConnected (discoverStep hub pl ps pg s).1 hub = true := by
      unfold hubConnected at hconn ⊢
      rw [hhubs]
      exact hconn
    have hdisc1 : (discoverStep hub pl ps pg s).1.discovery = false := by
      rw [discoverStep_discovery]
      exact hdisc
    rw [discoverStep_nodes hub pl ps pg _ hconn1 hdisc1, hhubs,
      discoverStep_nodes hub pl ps pg s hconn hdisc]
    by_cases hpl : invTruthy pl = false
    · simp [hpl]
    · by_cases hpg : invTruthy pg = false
      · simp only [if_neg hpl, if_pos hpg]
        simp only [mem_lightPhase]
        tauto
      · simp only [if_neg hpl, if_neg hpg]
        simp only [mem_gPhase, mem_lightPhase]
        rcases hlo : lastGroupOp s.hubs.length hub a (pg.getD []) with _ | b
        · simp only [hlo]
          tauto
        · simp only [hlo]

end HueNS
